import Mathlib

/-!
Shallow embedding of `src/launcher.py` (PortableLauncher).

The module defines a command-line normalizer `fixWindowsPath`, an abstract
launch class `LaunchMode` (constructor stores `(label, command)`; calling the
instance announces the label and then runs the command), seven concrete launch
classes (`System`, `Popen`, `Fork`, `Start`, `StartArgs`, `Spawn`, `TopLevel`),
a module-level platform-selected alias `PortableLauncher`, and a subclass
`QuietPortableLauncher` that overrides `announce` to do nothing.

OS state is modelled as a `Host` record (the parts of `sys`/`os` the module
reads), and each `run` method is a pure function from host and command line to
an `Outcome`: the list of lines printed, the ordered list of OS calls issued,
and the Python exception raised, if any.
-/

namespace PortableLauncherPy

/-- Whitespace characters recognized by Python's `str.lstrip()` / `str.split()`
(the ASCII ones; the module only ever meets ASCII command lines). -/
def pyIsSpace (c : Char) : Bool :=
  c = ' ' || c = '\t' || c = '\n' || c = '\r' || c = '\x0b' || c = '\x0c'

/-- Split a character list at every character satisfying `p`, keeping empty
pieces, as Python's `str.split(sep)` does for a one-character `sep` (and as
`str.split()` does before empty pieces are discarded).  On `[]` it returns
`[[]]`, matching `''.split(' ') == ['']`. -/
def splitP (p : Char → Bool) : List Char → List (List Char)
  | [] => [[]]
  | c :: cs =>
    if p c then [] :: splitP p cs
    else
      match splitP p cs with
      | [] => [[c]]
      | w :: ws => (c :: w) :: ws

/-- Python `cmdline.lstrip()`: drop leading whitespace. -/
def pyLstrip (s : String) : String :=
  String.mk (s.data.dropWhile pyIsSpace)

/-- Python `s.split(' ')`: split on every single space, keeping empty pieces. -/
def pySplitSp (s : String) : List String :=
  (splitP (fun c => c = ' ') s.data).map String.mk

/-- Python `s.split()` (no argument): split on whitespace runs, discarding
empty pieces; `''.split() == []`. -/
def pySplitWs (s : String) : List String :=
  ((splitP pyIsSpace s.data).filter (fun w => w ≠ [])).map String.mk

/-- `posixpath.normpath`, character-list level.  Follows the CPython source:
collapse redundant separators, drop `.` components, resolve `..` lexically,
preserve one or exactly two leading slashes, empty input gives `"."`. -/
def normpathData (cs : List Char) : List Char :=
  if cs = [] then ['.']
  else
    let initialSlashes : Nat :=
      if cs.take 1 = ['/'] then
        if cs.take 2 = ['/', '/'] ∧ cs.take 3 ≠ ['/', '/', '/'] then 2 else 1
      else 0
    let newComps := (splitP (fun c => c = '/') cs).foldl
      (fun acc comp =>
        if comp = [] ∨ comp = ['.'] then acc
        else if comp ≠ ['.', '.'] ∨ (initialSlashes = 0 ∧ acc = []) ∨
            acc.getLast? = some ['.', '.'] then acc ++ [comp]
        else if acc ≠ [] then acc.dropLast
        else acc) []
    let res := List.replicate initialSlashes '/' ++ List.intercalate ['/'] newComps
    if res = [] then ['.'] else res

/-- `os.path.normpath` on a POSIX host (the module reads it from `os.path`). -/
def normpath (s : String) : String :=
  String.mk (normpathData s.data)

/-- `fixWindowsPath(cmdline)` with the one fallible step made explicit:
`splitLine[0]` would raise `IndexError` if the split were empty, so the
embedding returns `none` in that (in fact unreachable) case.
Source: `splitLine = cmdline.lstrip().split(' ')`;
`fixedPath = os.path.normpath(splitLine[0])`;
`return ''.join([fixedPath] + splitLine[1:])`. -/
def fixWindowsPathE (cmdline : String) : Option String :=
  let splitLine := pySplitSp (pyLstrip cmdline)
  match splitLine with
  | [] => none
  | h :: t => some (String.join ([normpath h] ++ t))

/-- `fixWindowsPath(cmdline)`: total form (the `none` case never occurs,
see `fixWindowsPathE_total`). -/
def fixWindowsPath (cmdline : String) : String :=
  (fixWindowsPathE cmdline).getD ""

/-- The parts of the host OS / interpreter state the module reads:
`sys.platform`, `hasattr(os, 'fork')`, and `sys.executable` (`pypath`). -/
structure Host where
  platform : String
  hasFork : Bool
  executable : String
deriving DecidableEq

/-- `sys.platform[:3] == 'win'`: the module's Windows-family test. -/
def winPlat (platform : String) : Bool :=
  platform.data.take 3 = ['w', 'i', 'n']

/-- `pyfile = (sys.platform[:3] == 'win' and 'python.exe') or 'python'`. -/
def pyfile (h : Host) : String :=
  if winPlat h.platform then "python.exe" else "python"

/-- One OS-level call issued by a `run` method (the process-creating /
process-replacing primitives of `os` that the module uses). -/
inductive OSCall where
  | system (cmd : String)
  | popen (cmd : String)
  | fork
  | execvp (file : String) (argv : List String)
  | startfile (path : String)
  | spawnv (mode : String) (path : String) (argv : List String)
deriving DecidableEq

/-- A Python exception escaping a method.  The module raises via `assert`
(the constructor carries the assertion's message, `""` for a bare
`assert cond`) or by looking up an `os` attribute the host build lacks
(the constructor carries the missing attribute's name). -/
inductive PyError where
  | assertionError (msg : String)
  | attributeError (attr : String)
deriving DecidableEq

/-- Observable outcome of one method call: lines printed (in order), OS calls
issued (in order), and the exception raised, if any.  An exception is raised
at the point the trace stops, so on `err = some e` the recorded prints and
calls are exactly those that happened before the raise. -/
structure Outcome where
  printed : List String
  calls : List OSCall
  err : Option PyError
deriving DecidableEq

/-- `System.run`: `cmdline = fixWindowsPath(cmdline)`;
`os.system('{} {}'.format(pypath, cmdline))`. -/
def System.run (h : Host) (cmdline : String) : Outcome :=
  { printed := [],
    calls := [OSCall.system (h.executable ++ " " ++ fixWindowsPath cmdline)],
    err := none }

/-- `Popen.run`: `cmdline = fixWindowsPath(cmdline)`;
`os.popen(pypath + ' ' + cmdline)`. -/
def Popen.run (h : Host) (cmdline : String) : Outcome :=
  { printed := [],
    calls := [OSCall.popen (h.executable ++ " " ++ fixWindowsPath cmdline)],
    err := none }

/-- `Fork.run`: `assert hasattr(os, 'fork')`; `cmdline = cmdline.split()`;
`if os.fork() == 0: os.execvp(pypath, [pyfile] + cmdline)`.  The trace records
the fork and the child's exec; the parent branch falls through and returns. -/
def Fork.run (h : Host) (cmdline : String) : Outcome :=
  if ¬ h.hasFork then
    { printed := [], calls := [], err := some (PyError.assertionError "") }
  else
    { printed := [],
      calls := [OSCall.fork, OSCall.execvp h.executable (pyfile h :: pySplitWs cmdline)],
      err := none }

/-- `Start.run`: `assert sys.platform[:3] == 'win'`;
`cmdline = fixWindowsPath(cmdline)`; `os.startfile(cmdline)`. -/
def Start.run (h : Host) (cmdline : String) : Outcome :=
  if ¬ winPlat h.platform then
    { printed := [], calls := [], err := some (PyError.assertionError "") }
  else
    { printed := [], calls := [OSCall.startfile (fixWindowsPath cmdline)], err := none }

/-- `StartArgs.run`: `assert sys.platform[:3] == 'win'`;
`os.system('start ' + cmdline)` (no normalization). -/
def StartArgs.run (h : Host) (cmdline : String) : Outcome :=
  if ¬ winPlat h.platform then
    { printed := [], calls := [], err := some (PyError.assertionError "") }
  else
    { printed := [], calls := [OSCall.system ("start " ++ cmdline)], err := none }

/-- `Spawn.run`: `os.spawnv(os.P_DETACH, pypath, (pyfile, cmdline))` —
the whole command line is one argv element, neither normalized nor split.
`os.P_DETACH` exists only on Windows builds of the `os` module, so on any
other host the attribute lookup raises `AttributeError` before the spawn
call is made. -/
def Spawn.run (h : Host) (cmdline : String) : Outcome :=
  if ¬ winPlat h.platform then
    { printed := [], calls := [], err := some (PyError.attributeError "P_DETACH") }
  else
    { printed := [],
      calls := [OSCall.spawnv "P_DETACH" h.executable [pyfile h, cmdline]],
      err := none }

/-- `TopLevel.run`: `assert False, 'Mode not yet implemented.'`. -/
def TopLevel.run (_h : Host) (_cmdline : String) : Outcome :=
  { printed := [], calls := [], err := some (PyError.assertionError "Mode not yet implemented.") }

/-- The seven concrete `LaunchMode` subclasses, as selectable strategy types. -/
inductive Mode where
  | system
  | popen
  | fork
  | start
  | startArgs
  | spawn
  | topLevel
deriving DecidableEq

/-- Dispatch a strategy type to its `run` method. -/
def Mode.runOn : Mode → Host → String → Outcome
  | Mode.system => System.run
  | Mode.popen => Popen.run
  | Mode.fork => Fork.run
  | Mode.start => Start.run
  | Mode.startArgs => StartArgs.run
  | Mode.spawn => Spawn.run
  | Mode.topLevel => TopLevel.run

/-- A constructed `LaunchMode` instance: `self.what = label`,
`self.where = command` (field `whereCmd`, since `where` is reserved in Lean). -/
structure LaunchMode where
  what : String
  whereCmd : String
deriving DecidableEq

/-- `LaunchMode.__init__(self, label, command)`: stores the two fields and has
no other effect — the returned trace components are empty by the method body
(two plain attribute assignments). -/
def LaunchMode.init (label command : String) : LaunchMode × Outcome :=
  ({ what := label, whereCmd := command }, { printed := [], calls := [], err := none })

/-- `LaunchMode.announce(self, text)`: `print(text)` — one printed line. -/
def LaunchMode.announce (text : String) : List String := [text]

/-- `QuietPortableLauncher.announce(self, text)`: `pass` — prints nothing. -/
def QuietPortableLauncher.announce (_text : String) : List String := []

/-- `LaunchMode.__call__(self)`: `self.announce(self.what)` then
`self.run(self.where)`, with the announce output preceding everything the
`run` method does.  Parametric in the `announce` override and in the
subclass's `run`. -/
def LaunchMode.call (self : LaunchMode) (announceF : String → List String)
    (runF : Host → String → Outcome) (h : Host) : Outcome :=
  let announced := announceF self.what
  let r := runF h self.whereCmd
  { printed := announced ++ r.printed, calls := r.calls, err := r.err }

/-- Construct a strategy of type `m` with `(label, command)` and call it,
with the inherited default `announce`. -/
def Mode.invoke (m : Mode) (label command : String) (h : Host) : Outcome :=
  (LaunchMode.init label command).1.call LaunchMode.announce (m.runOn) h

/-- Module-level selection: `if sys.platform[:3] == 'win': PortableLauncher =
Spawn else: PortableLauncher = Fork`.  The binding is a pure function of the
platform identifier read once at import. -/
def PortableLauncher (platform : String) : Mode :=
  if winPlat platform then Mode.spawn else Mode.fork

/-- Construct the platform-default strategy with `(label, command)` and call it. -/
def PortableLauncher.invoke (label command : String) (h : Host) : Outcome :=
  (PortableLauncher h.platform).invoke label command h

/-- `QuietPortableLauncher(label, command)()`: inherits everything from the
platform default but overrides `announce` with the no-op version. -/
def QuietPortableLauncher.invoke (label command : String) (h : Host) : Outcome :=
  (LaunchMode.init label command).1.call QuietPortableLauncher.announce
    ((PortableLauncher h.platform).runOn) h

/-- `splitP` never returns the empty list (Python `str.split` never returns
an empty list for a one-character separator). -/
theorem splitP_ne_nil (p : Char → Bool) (l : List Char) : splitP p l ≠ [] := by
  induction l with
  | nil => simp [splitP]
  | cons c cs ih =>
    rw [splitP]
    by_cases hc : p c
    · simp [hc]
    · simp only [hc, if_false]
      cases splitP p cs with
      | nil => simp
      | cons w ws => simp

/-- `str.split(' ')` on any string yields at least one token. -/
theorem pySplitSp_ne_nil (s : String) : pySplitSp s ≠ [] := by
  unfold pySplitSp
  intro hh
  exact splitP_ne_nil (fun c => c = ' ') s.data (List.map_eq_nil_iff.mp hh)

/-- Every `run` method prints nothing; all announce output comes from
`announce`. -/
theorem runOn_printed (m : Mode) (h : Host) (c : String) : (m.runOn h c).printed = [] := by
  cases m <;>
    simp only [Mode.runOn, System.run, Popen.run, Fork.run, Start.run, StartArgs.run,
      Spawn.run, TopLevel.run] <;>
    first
      | rfl
      | (split <;> rfl)

-- scratch sanity checks (module behaviour reproduced on concrete inputs)
example : normpath "a//b" = "a/b" := by decide
example : normpath "/tmp/script.py" = "/tmp/script.py" := by decide
example : normpath "" = "." := by decide
example : normpath "//" = "//" := by decide
example : normpath "///a" = "/a" := by decide
example : normpath "a/./b/../c" = "a/c" := by decide
example : normpath "/.." = "/" := by decide
example : normpath "../x" = "../x" := by decide
example : fixWindowsPath "a//b c d" = "a/bcd" := by decide
example : fixWindowsPath "" = "." := by decide
example : fixWindowsPath "  /x//y" = "/x/y" := by decide
example : pySplitWs " a  b " = ["a", "b"] := by decide
example : pySplitSp "a  b" = ["a", "", "b"] := by decide

/-- C1 counterexample: on the command line `"a//b c"` (head token `a//b` has a
redundant separator, one argument token `c`), the token sequence of
`fixWindowsPath`'s result is not the canonical head followed by the unchanged
argument: the result is the single token `"a/bc"`. -/
theorem fixWindowsPath_head_token_cex :
    ¬ (pySplitSp (fixWindowsPath "a//b c") = normpath "a//b" :: ["c"]) := by decide

/-- C1 (amended): when the command line consists of the head path token alone
(no argument tokens after the space-split of the stripped input),
`fixWindowsPath` returns exactly the platform-canonical form of that token, so
the head token of the result is canonical and the (empty) trailing tokens are
unchanged.  With at least one argument token, the canonical head and the
arguments are concatenated without separators, so the result re-parses as a
single token (see the counterexample). -/
theorem fixWindowsPath_single_token (cmdline p : String)
    (h : pySplitSp (pyLstrip cmdline) = [p]) :
    fixWindowsPath cmdline = normpath p := by
  simp [fixWindowsPath, fixWindowsPathE, h, String.join]

/-- C1 witness: the amended statement applied to the command line `" a//b"`. -/
theorem fixWindowsPath_single_token_witness :
    pySplitSp (pyLstrip " a//b") = ["a//b"] ∧ fixWindowsPath " a//b" = normpath "a//b" :=
  ⟨by decide, fixWindowsPath_single_token " a//b" "a//b" (by decide)⟩

/-- C4: `fixWindowsPath` reassembles its result as the plain concatenation
(`''.join`) of the rewritten head token with the remaining tokens — no
separator between the rewritten head and the first remaining token, and none
between subsequent tokens. -/
theorem fixWindowsPath_concat_policy (cmdline p : String) (args : List String)
    (h : pySplitSp (pyLstrip cmdline) = p :: args) :
    fixWindowsPath cmdline = String.join (normpath p :: args) := by
  simp [fixWindowsPath, fixWindowsPathE, h]

/-- C4 witness: the concatenation policy applied to `"a//b c d"`, whose result
is the separator-free `"a/bcd"`. -/
theorem fixWindowsPath_concat_policy_witness :
    pySplitSp (pyLstrip "a//b c d") = ["a//b", "c", "d"] ∧
    fixWindowsPath "a//b c d" = String.join [normpath "a//b", "c", "d"] ∧
    fixWindowsPath "a//b c d" = "a/bcd" :=
  ⟨by decide, fixWindowsPath_concat_policy "a//b c d" "a//b" ["c", "d"] (by decide), by decide⟩

/-- C9: `fixWindowsPath` is total — for every input string, including the
empty string, the one fallible step (`splitLine[0]`) succeeds, so the
operation returns a defined result and raises no error. -/
theorem fixWindowsPath_no_crash (cmdline : String) :
    (fixWindowsPathE cmdline).isSome = true ∧
    fixWindowsPath cmdline = (fixWindowsPathE cmdline).getD "" := by
  refine ⟨?_, rfl⟩
  rw [fixWindowsPathE]
  cases hh : pySplitSp (pyLstrip cmdline) with
  | nil => exact absurd hh (pySplitSp_ne_nil (pyLstrip cmdline))
  | cons a t => simp [hh]

/-- C2: the process-wide default launcher binding is `Spawn` exactly on
Windows-like platform identifiers and `Fork` exactly on all others; the two
cases are exclusive and exhaustive, so exactly one default is bound, and the
binding is a pure function of the platform identifier read once at import. -/
theorem portableLauncher_selection (platform : String) :
    (PortableLauncher platform = Mode.spawn ↔ winPlat platform = true) ∧
    (PortableLauncher platform = Mode.fork ↔ winPlat platform = false) := by
  unfold PortableLauncher
  by_cases hw : winPlat platform <;> simp [hw]

/-- C3: invoking `Start` or `StartArgs` on a non-Windows-like platform, or
`Fork` on a host without the fork facility, fails on the leading assertion:
the raised error is recorded and the OS-call trace is empty, so no process is
created. -/
theorem precondition_gates (h : Host) (label cmd : String) :
    (winPlat h.platform = false →
      Mode.start.invoke label cmd h =
        { printed := [label], calls := [], err := some (PyError.assertionError "") } ∧
      Mode.startArgs.invoke label cmd h =
        { printed := [label], calls := [], err := some (PyError.assertionError "") }) ∧
    (h.hasFork = false →
      Mode.fork.invoke label cmd h =
        { printed := [label], calls := [], err := some (PyError.assertionError "") }) := by
  constructor
  · intro hw
    constructor <;>
      simp [Mode.invoke, LaunchMode.init, LaunchMode.call, Mode.runOn, Start.run,
        StartArgs.run, LaunchMode.announce, hw]
  · intro hf
    simp [Mode.invoke, LaunchMode.init, LaunchMode.call, Mode.runOn, Fork.run,
      LaunchMode.announce, hf]

/-- C3 witness: the precondition gates applied on a concrete non-Windows,
fork-less host. -/
theorem precondition_gates_witness :
    (Mode.start.invoke "L" "c.py" ⟨"linux", false, "/usr/bin/python"⟩ =
      { printed := ["L"], calls := [], err := some (PyError.assertionError "") } ∧
    Mode.startArgs.invoke "L" "c.py" ⟨"linux", false, "/usr/bin/python"⟩ =
      { printed := ["L"], calls := [], err := some (PyError.assertionError "") }) ∧
    Mode.fork.invoke "L" "c.py" ⟨"linux", false, "/usr/bin/python"⟩ =
      { printed := ["L"], calls := [], err := some (PyError.assertionError "") } :=
  ⟨(precondition_gates ⟨"linux", false, "/usr/bin/python"⟩ "L" "c.py").1 (by decide),
   (precondition_gates ⟨"linux", false, "/usr/bin/python"⟩ "L" "c.py").2 (by decide)⟩

/-- C5: invoking the `TopLevel` placeholder strategy, for every constructor
pair `(label, command)` — the empty strings included — announces the label and
then fails with the mode-not-implemented assertion, issuing no OS call. -/
theorem topLevel_always_fails (label command : String) (h : Host) :
    Mode.topLevel.invoke label command h =
      { printed := [label], calls := [],
        err := some (PyError.assertionError "Mode not yet implemented.") } := by
  simp [Mode.invoke, LaunchMode.init, LaunchMode.call, Mode.runOn, TopLevel.run,
    LaunchMode.announce]

/-- C6: for every host and `(label, command)`, `QuietPortableLauncher` issues
exactly the OS calls of the platform-default strategy on the same arguments,
raises the same error if any, and prints nothing, while the default prints
exactly the label. -/
theorem quiet_variant_same_launch (h : Host) (label command : String) :
    (QuietPortableLauncher.invoke label command h).calls =
      (PortableLauncher.invoke label command h).calls ∧
    (QuietPortableLauncher.invoke label command h).err =
      (PortableLauncher.invoke label command h).err ∧
    (QuietPortableLauncher.invoke label command h).printed = [] ∧
    (PortableLauncher.invoke label command h).printed = [label] := by
  simp [QuietPortableLauncher.invoke, PortableLauncher.invoke, Mode.invoke,
    LaunchMode.init, LaunchMode.call, QuietPortableLauncher.announce,
    LaunchMode.announce, runOn_printed]

/-- C7 counterexample: on a concrete non-Windows host with fork available, the
default strategy invoked with `(label="run", command="/tmp/script.py --flag")`
does not exec the interpreter with arguments
`[path-normalized "script.py", "--flag"]` — the script argument stays
`"/tmp/script.py"`. -/
theorem default_fork_scenario_cex :
    ¬ ((PortableLauncher.invoke "run" "/tmp/script.py --flag"
          ⟨"linux", true, "/usr/bin/python3"⟩).calls =
        [OSCall.fork,
         OSCall.execvp "/usr/bin/python3" ["python", normpath "script.py", "--flag"]]) := by
  decide

/-- C7 (amended): on every non-Windows-like host with the fork facility, the
platform default is `Fork`, and invoking it with
`(label="run", command="/tmp/script.py --flag")` forks and then execs the
interpreter with arguments `["/tmp/script.py", "--flag"]` — the
whitespace-split command tokens verbatim, no path normalization — after the
interpreter file name, and the parent call returns without error and without
waiting. -/
theorem default_fork_scenario (h : Host) (hwin : winPlat h.platform = false)
    (hfork : h.hasFork = true) :
    PortableLauncher h.platform = Mode.fork ∧
    PortableLauncher.invoke "run" "/tmp/script.py --flag" h =
      { printed := ["run"],
        calls := [OSCall.fork,
          OSCall.execvp h.executable ["python", "/tmp/script.py", "--flag"]],
        err := none } := by
  have hp : PortableLauncher h.platform = Mode.fork := by
    simp [PortableLauncher, hwin]
  have hsplit : pySplitWs "/tmp/script.py --flag" = ["/tmp/script.py", "--flag"] := by
    decide
  refine ⟨hp, ?_⟩
  simp [PortableLauncher.invoke, hp, Mode.invoke, LaunchMode.init, LaunchMode.call,
    Mode.runOn, Fork.run, hfork, pyfile, hwin, LaunchMode.announce, hsplit]

/-- C7 witness: the amended scenario on a concrete Linux host. -/
theorem default_fork_scenario_witness :
    PortableLauncher "linux" = Mode.fork ∧
    PortableLauncher.invoke "run" "/tmp/script.py --flag"
        ⟨"linux", true, "/usr/bin/python3"⟩ =
      { printed := ["run"],
        calls := [OSCall.fork,
          OSCall.execvp "/usr/bin/python3" ["python", "/tmp/script.py", "--flag"]],
        err := none } :=
  default_fork_scenario ⟨"linux", true, "/usr/bin/python3"⟩ (by decide) (by decide)

/-- C8: construction stores `(label, command)` and has no effect (nothing
printed, no OS call, no error), and the no-argument invocation first emits the
`announce` output on the stored label and then exactly the effects of
`run` on the stored command. -/
theorem construct_then_invoke (m : Mode) (label command : String) (h : Host) :
    (LaunchMode.init label command).2 = { printed := [], calls := [], err := none } ∧
    (LaunchMode.init label command).1.what = label ∧
    (LaunchMode.init label command).1.whereCmd = command ∧
    m.invoke label command h =
      { printed := label :: (m.runOn h command).printed,
        calls := (m.runOn h command).calls,
        err := (m.runOn h command).err } := by
  refine ⟨rfl, rfl, rfl, ?_⟩
  simp [Mode.invoke, LaunchMode.init, LaunchMode.call, LaunchMode.announce]

/-- C10: on every Windows-like host (where `os.P_DETACH` exists), `Spawn`
passes the entire command line as the single argv element after the
interpreter name — verbatim, neither normalized nor split — to the detached
spawn primitive; on any other host the `P_DETACH` attribute lookup raises
before any OS call is made. -/
theorem spawn_single_argv_element (h : Host) (label cmdline : String) :
    (winPlat h.platform = true →
      Mode.spawn.invoke label cmdline h =
        { printed := [label],
          calls := [OSCall.spawnv "P_DETACH" h.executable [pyfile h, cmdline]],
          err := none }) ∧
    (winPlat h.platform = false →
      Mode.spawn.invoke label cmdline h =
        { printed := [label], calls := [],
          err := some (PyError.attributeError "P_DETACH") }) := by
  constructor <;>
    intro hw <;>
    simp [Mode.invoke, LaunchMode.init, LaunchMode.call, Mode.runOn, Spawn.run,
      LaunchMode.announce, hw]

/-- C10 witness: the single-argv-element behaviour on a concrete Windows host
with a command line containing an argument. -/
theorem spawn_single_argv_element_witness :
    Mode.spawn.invoke "demo" "/tmp/s.py --x" ⟨"win32", false, "C:/Python/python.exe"⟩ =
      { printed := ["demo"],
        calls := [OSCall.spawnv "P_DETACH" "C:/Python/python.exe"
          ["python.exe", "/tmp/s.py --x"]],
        err := none } :=
  (spawn_single_argv_element ⟨"win32", false, "C:/Python/python.exe"⟩
    "demo" "/tmp/s.py --x").1 (by decide)

end PortableLauncherPy
